import Mathlib

/-
Verification of the EduGraph tutoring pipeline (src/app.py) against its
natural-language specification.

The pipeline is a sequence of stage functions over a mutable dictionary
("TutorState").  We embed the dictionary as a structure of optional string
fields (a key absent from the dict is `none`); dictionary access
state["k"] on a missing key raises KeyError in Python, which we model as
an `Except.error`.  External collaborators are embedded as function
parameters:
  - the text-generation service  gemini.generate_content(...).text
    is `Gen : String → Except String String`;
  - the translation service  GoogleTranslator(source, target).translate(text)
    is `Translator : String → String → String → Except String String`
    (source, target, text), and every invocation made by a stage is
    recorded in a returned list of `TransCall`s so that call counts can be
    stated;
  - the retrieval service  WikipediaRetriever().get_relevant_documents(q)
    is `Search : String → List String` (the list of page_content fields;
    per the baseline contract it does not fail).
-/

namespace EduGraph

/-- Decides whether needle occurs as a contiguous substring of hay, over
character lists; models the Python expression needle in hay. -/
def containsSub : List Char → List Char → Bool
  | [], needle => needle.isEmpty
  | hay@(_ :: t), needle => needle.isPrefixOf hay || containsSub t needle

/-- String version of substring containment; models Python needle in hay. -/
def strContains (hay needle : String) : Bool :=
  containsSub hay.data needle.data

/-- Models Python str.lower: every character lower-cased. -/
def pyLower (s : String) : String :=
  String.mk (s.data.map Char.toLower)

/-- Models Python str.strip: remove leading and trailing whitespace. -/
def pyStrip (s : String) : String :=
  String.mk (((s.data.dropWhile Char.isWhitespace).reverse.dropWhile Char.isWhitespace).reverse)

/-- Models Python str.capitalize: first character upper-cased, the rest
lower-cased. -/
def pyCapitalize (s : String) : String :=
  match s.data with
  | [] => ""
  | c :: rest => String.mk (c.toUpper :: rest.map Char.toLower)

/-- The text-generation collaborator: prompt in, generated text out, or a
service error. -/
abbrev Gen := String → Except String String

/-- The translation collaborator: (source, target, text) in, translated
text out, or a service error. -/
abbrev Translator := String → String → String → Except String String

/-- The retrieval collaborator: query in, ordered document contents out. -/
abbrev Search := String → List String

/-- One invocation of the translation collaborator, as recorded by the
instrumented stages. -/
structure TransCall where
  source : String
  target : String
  text : String
deriving Repr, DecidableEq

/-- The LangGraph state dictionary of src/app.py (class TutorState); a
field is `none` while the corresponding key is absent. -/
structure TutorState where
  question : Option String := none
  lang : Option String := none
  translated : Option String := none
  topic : Option String := none
  grade : Option String := none
  docs : Option String := none
  answer : Option String := none
  feedback : Option String := none
deriving Repr, DecidableEq

/-- LANGUAGE_CODES of src/app.py: language name to two-letter
translation-service code. -/
def LANGUAGE_CODES : List (String × String) :=
  [("English", "en"), ("Hindi", "hi"), ("Gujarati", "gu"), ("Tamil", "ta")]

/-- Models LANGUAGE_CODES.get(lang, "en") of src/app.py line 92. -/
def langCode (lang : String) : String :=
  ((LANGUAGE_CODES.find? (fun p => p.1 == lang)).map Prod.snd).getD "en"

/-- translate_node of src/app.py (lines 36-42): if the learner language,
lower-cased, is not "english", translate the question to English via the
translation collaborator (a collaborator failure is not caught and
propagates); otherwise copy the question unchanged with no collaborator
call. -/
def translate_node (tr : Translator) (s : TutorState) :
    Except String (TutorState × List TransCall) :=
  match s.lang, s.question with
  | some lang, some q =>
    if pyLower lang ≠ "english" then
      match tr "auto" "en" q with
      | .ok t => .ok ({ s with translated := some t }, [⟨"auto", "en", q⟩])
      | .error e => .error e
    else
      .ok ({ s with translated := some q }, [])
  | _, _ => .error "KeyError"

/-- The classification prompt built at src/app.py line 45. -/
def intentPrompt (translated : String) : String :=
  "What school subject does the following question belong to?\n\nQuestion: \"" ++ translated ++ "\""

/-- The keyword-matching chain of src/app.py lines 48-59, applied to the
already lower-cased generation response. -/
def classifyTopic (response : String) : String :=
  if strContains response "math" then "Math"
  else if strContains response "science" then "Science"
  else if strContains response "ai" || strContains response "artificial intelligence" then
    "Artificial Intelligence"
  else if strContains response "history" then "History"
  else if strContains response "geography" then "Geography"
  else pyCapitalize (pyStrip response)

/-- intent_node of src/app.py (lines 44-63): build the classification
prompt, submit it to the generation collaborator, lower-case the response
and keyword-match it; any collaborator failure is absorbed and topic is
set to "General Knowledge"; grade is always set to "Grade 6". -/
def intent_node (gen : Gen) (s : TutorState) : Except String TutorState :=
  match s.translated with
  | none => .error "KeyError"
  | some tq =>
    let s1 : TutorState :=
      match gen (intentPrompt tq) with
      | .ok raw => { s with topic := some (classifyTopic (pyLower raw)) }
      | .error _ => { s with topic := some "General Knowledge" }
    .ok { s1 with grade := some "Grade 6" }

/-- Models docs[0].page_content if docs else "No content found" of
src/app.py line 68. -/
def firstDoc (docs : List String) : String :=
  match docs with
  | [] => "No content found"
  | d :: _ => d

/-- retrieve_node of src/app.py (lines 65-69): query the retrieval
collaborator with the canonical question and keep the first returned
document content, or the sentinel when none is returned. -/
def retrieve_node (search : Search) (s : TutorState) : Except String TutorState :=
  match s.translated with
  | none => .error "KeyError"
  | some q => .ok { s with docs := some (firstDoc (search q)) }

/-- The instructional prompt built at src/app.py lines 72-78. -/
def answerPrompt (grade topic docs : String) : String :=
  "\nYou are an AI tutor helping a " ++ grade ++ " student understand the topic: " ++ topic ++
    ".\nExplain this using very simple words and friendly examples.\n\nContext:\n" ++ docs ++ "\n"

/-- generate_answer_node of src/app.py (lines 71-81): build the
instructional prompt and submit it to the generation collaborator; the
raw returned text becomes the answer verbatim; a collaborator failure is
not caught and propagates. -/
def generate_answer_node (gen : Gen) (s : TutorState) : Except String TutorState :=
  match s.grade, s.topic, s.docs with
  | some g, some t, some d =>
    match gen (answerPrompt g t d) with
    | .ok r => .ok { s with answer := some r }
    | .error e => .error e
  | _, _, _ => .error "KeyError"

/-- progress_node of src/app.py (lines 83-84): the identity transform. -/
def progress_node (s : TutorState) : TutorState := s

/-- The feedback template string of src/app.py line 88. -/
def feedbackText (topic : String) : String :=
  "🎉 Great job! Want to learn more about " ++ topic ++ "?"

/-- feedback_node of src/app.py (lines 86-89): total and deterministic;
uses state.get with default "this topic" when the topic key is absent. -/
def feedback_node (s : TutorState) : TutorState :=
  { s with feedback := some (feedbackText (s.topic.getD "this topic")) }

/-- The diagnostic suffix appended at src/app.py line 100 on a caught
translation failure. -/
def translationFailedSuffix (e : String) : String :=
  "\n\n(⚠️ Translation failed: " ++ e ++ ")"

/-- translate_back_node of src/app.py (lines 91-101): look up the target
code with default "en"; when it is not "en", translate answer then
feedback inside a single try block and assign both on success; any
exception of either call is caught and the diagnostic suffix is appended
to the (unreplaced) answer, leaving feedback untouched. -/
def translate_back_node (tr : Translator) (s : TutorState) :
    Except String (TutorState × List TransCall) :=
  match s.lang with
  | none => .error "KeyError"
  | some lang =>
    let target := langCode lang
    if target ≠ "en" then
      match s.answer with
      | none => .error "KeyError"
      | some ans =>
        match tr "auto" target ans with
        | .error e =>
          .ok ({ s with answer := some (ans ++ translationFailedSuffix e) },
               [⟨"auto", target, ans⟩])
        | .ok ta =>
          match s.feedback with
          | none =>
            .ok ({ s with answer := some (ans ++ translationFailedSuffix "KeyError") },
                 [⟨"auto", target, ans⟩])
          | some fb =>
            match tr "auto" target fb with
            | .error e =>
              .ok ({ s with answer := some (ans ++ translationFailedSuffix e) },
                   [⟨"auto", target, ans⟩, ⟨"auto", target, fb⟩])
            | .ok tf =>
              .ok ({ s with answer := some ta, feedback := some tf },
                   [⟨"auto", target, ans⟩, ⟨"auto", target, fb⟩])
    else
      .ok (s, [])

/-- The driver of src/app.py lines 143-168: the stages applied strictly in
order to a fresh state holding only the question and the language; an
uncaught stage exception aborts the run; the translation-call traces of
the two translating stages are concatenated. -/
def run_pipeline (tr : Translator) (gen : Gen) (search : Search)
    (question lang : String) : Except String (TutorState × List TransCall) :=
  let s0 : TutorState := { question := some question, lang := some lang }
  match translate_node tr s0 with
  | .error e => .error e
  | .ok (s1, calls1) =>
    match intent_node gen s1 with
    | .error e => .error e
    | .ok s2 =>
      match retrieve_node search s2 with
      | .error e => .error e
      | .ok s3 =>
        match generate_answer_node gen s3 with
        | .error e => .error e
        | .ok s4 =>
          match translate_back_node tr (feedback_node (progress_node s4)) with
          | .error e => .error e
          | .ok (s7, calls2) => .ok (s7, calls1 ++ calls2)

/-- C3: if the generation collaborator fails on the classification prompt,
intent_node absorbs the failure and returns successfully, with topic set to
the fixed default "General Knowledge" (and grade set to "Grade 6"): the
failure never propagates out of the classifier stage. -/
theorem claim_C3 (gen : Gen) (s : TutorState) (tq e : String)
    (hq : s.translated = some tq)
    (hg : gen (intentPrompt tq) = .error e) :
    intent_node gen s =
      .ok { s with topic := some "General Knowledge", grade := some "Grade 6" } := by
  simp [intent_node, hq, hg]

/-- Witness for C3 at a concrete failing generator. -/
theorem claim_C3_witness :
    intent_node (fun _ => .error "boom") { translated := some "q" } =
      .ok { translated := some "q", topic := some "General Knowledge",
            grade := some "Grade 6" } :=
  claim_C3 (fun _ => .error "boom") { translated := some "q" } "q" "boom" rfl rfl

/-- C7: retrieve_node keeps exactly the first returned document content,
and substitutes the sentinel "No content found" when the retrieval
collaborator returns zero documents. -/
theorem claim_C7 (search : Search) (s : TutorState) (q : String)
    (hq : s.translated = some q) :
    (search q = [] →
      retrieve_node search s = .ok { s with docs := some "No content found" }) ∧
    (∀ d rest, search q = d :: rest →
      retrieve_node search s = .ok { s with docs := some d }) := by
  constructor
  · intro h
    simp [retrieve_node, hq, h, firstDoc]
  · intro d rest h
    simp [retrieve_node, hq, h, firstDoc]

/-- Witness for C7 at an empty result sequence and at a two-document
result sequence. -/
theorem claim_C7_witness :
    retrieve_node (fun _ => []) { translated := some "q" } =
      .ok { translated := some "q", docs := some "No content found" } ∧
    retrieve_node (fun _ => ["d1", "d2"]) { translated := some "q" } =
      .ok { translated := some "q", docs := some "d1" } :=
  ⟨(claim_C7 (fun _ => []) { translated := some "q" } "q" rfl).1 rfl,
   (claim_C7 (fun _ => ["d1", "d2"]) { translated := some "q" } "q" rfl).2 "d1" ["d2"] rfl⟩

/-- C10: feedback_node is total and deterministic, producing the fixed
template around the topic with no external call, and substitutes the
literal "this topic" when the topic field is absent. -/
theorem claim_C10 (s : TutorState) :
    feedback_node s =
      { s with feedback := some ("🎉 Great job! Want to learn more about " ++
          s.topic.getD "this topic" ++ "?") } ∧
    (s.topic = none →
      (feedback_node s).feedback =
        some "🎉 Great job! Want to learn more about this topic?") := by
  constructor
  · rfl
  · intro h
    show some (feedbackText (s.topic.getD "this topic")) = _
    rw [h]
    decide

/-- Witness for C10 at the empty state, whose topic field is absent. -/
theorem claim_C10_witness :
    feedback_node {} =
      { ({} : TutorState) with feedback := some ("🎉 Great job! Want to learn more about " ++
          (({} : TutorState)).topic.getD "this topic" ++ "?") } ∧
    ((({} : TutorState)).topic = none →
      (feedback_node {}).feedback =
        some "🎉 Great job! Want to learn more about this topic?") :=
  claim_C10 {}

/-- C6: when the learner language is English, translate_node copies the
question into translated and translate_back_node leaves the state
unchanged, and neither stage invokes the translation collaborator (both
call traces are empty). -/
theorem claim_C6 (tr : Translator) (s t : TutorState) (q : String)
    (hq : s.question = some q) (hl : s.lang = some "English")
    (hl2 : t.lang = some "English") :
    translate_node tr s = .ok ({ s with translated := some q }, []) ∧
    translate_back_node tr t = .ok (t, []) := by
  have hEng : ¬ (pyLower "English" ≠ "english") := by decide
  have hc : langCode "English" = "en" := by decide
  constructor
  · simp [translate_node, hq, hl, hEng]
  · simp [translate_back_node, hl2, hc]

/-- Witness for C6 at a concrete English-language state and an
always-failing translator, showing the translator is never consulted. -/
theorem claim_C6_witness :
    translate_node (fun _ _ _ => .error "down")
        { question := some "hi", lang := some "English" } =
      .ok ({ question := some "hi", lang := some "English", translated := some "hi" }, []) ∧
    translate_back_node (fun _ _ _ => .error "down")
        { lang := some "English", answer := some "a", feedback := some "f" } =
      .ok ({ lang := some "English", answer := some "a", feedback := some "f" }, []) :=
  claim_C6 (fun _ _ _ => .error "down")
    { question := some "hi", lang := some "English" }
    { lang := some "English", answer := some "a", feedback := some "f" }
    "hi" rfl rfl rfl

/-- C8: a learner language outside the supported set maps to the canonical
code "en" under LANGUAGE_CODES.get, and translate_back_node then treats it
as canonical: the state passes through unchanged with zero translation
calls and no failure. -/
theorem claim_C8 (tr : Translator) (s : TutorState) (lang : String)
    (h1 : lang ≠ "English") (h2 : lang ≠ "Hindi")
    (h3 : lang ≠ "Gujarati") (h4 : lang ≠ "Tamil")
    (hl : s.lang = some lang) :
    langCode lang = "en" ∧ translate_back_node tr s = .ok (s, []) := by
  have e1 : ("English" == lang) = false := beq_eq_false_iff_ne.mpr (Ne.symm h1)
  have e2 : ("Hindi" == lang) = false := beq_eq_false_iff_ne.mpr (Ne.symm h2)
  have e3 : ("Gujarati" == lang) = false := beq_eq_false_iff_ne.mpr (Ne.symm h3)
  have e4 : ("Tamil" == lang) = false := beq_eq_false_iff_ne.mpr (Ne.symm h4)
  have hc : langCode lang = "en" := by
    simp [langCode, LANGUAGE_CODES, List.find?, e1, e2, e3, e4]
  exact ⟨hc, by simp [translate_back_node, hl, hc]⟩

/-- Witness for C8 at the unrecognized language "French". -/
theorem claim_C8_witness :
    langCode "French" = "en" ∧
    translate_back_node (fun _ _ _ => .error "down")
        { lang := some "French", answer := some "a", feedback := some "f" } =
      .ok ({ lang := some "French", answer := some "a", feedback := some "f" }, []) :=
  claim_C8 (fun _ _ _ => .error "down")
    { lang := some "French", answer := some "a", feedback := some "f" }
    "French" (by decide) (by decide) (by decide) (by decide) rfl

/-- C2: a generation-collaborator failure while producing the explanation
is fatal: generate_answer_node returns the error with no fallback, and the
driver propagates it out of the pipeline to the caller. -/
theorem claim_C2 (tr : Translator) (gen : Gen) (search : Search)
    (question lang e : String) (s1 : TutorState) (c1 : List TransCall)
    (s2 s3 : TutorState) (g t d : String)
    (h1 : translate_node tr { question := some question, lang := some lang } = .ok (s1, c1))
    (h2 : intent_node gen s1 = .ok s2)
    (h3 : retrieve_node search s2 = .ok s3)
    (hg : s3.grade = some g) (ht : s3.topic = some t) (hd : s3.docs = some d)
    (hgen : gen (answerPrompt g t d) = .error e) :
    generate_answer_node gen s3 = .error e ∧
    run_pipeline tr gen search question lang = .error e := by
  have hnode : generate_answer_node gen s3 = .error e := by
    simp [generate_answer_node, hg, ht, hd, hgen]
  exact ⟨hnode, by simp [run_pipeline, h1, h2, h3, hnode]⟩

/-- Witness for C2: an English-language request whose generator classifies
successfully but fails on the instructional prompt; the whole pipeline
returns that error. -/
theorem claim_C2_witness :
    generate_answer_node
        (fun p => if p = intentPrompt "q" then .ok "science" else .error "genfail")
        { question := some "q", lang := some "English", translated := some "q",
          topic := some "Science", grade := some "Grade 6",
          docs := some "No content found" } =
      .error "genfail" ∧
    run_pipeline (fun _ _ _ => .error "transdown")
        (fun p => if p = intentPrompt "q" then .ok "science" else .error "genfail")
        (fun _ => []) "q" "English" =
      .error "genfail" :=
  claim_C2 (fun _ _ _ => .error "transdown")
    (fun p => if p = intentPrompt "q" then .ok "science" else .error "genfail")
    (fun _ => []) "q" "English" "genfail"
    { question := some "q", lang := some "English", translated := some "q" } []
    { question := some "q", lang := some "English", translated := some "q",
      topic := some "Science", grade := some "Grade 6" }
    { question := some "q", lang := some "English", translated := some "q",
      topic := some "Science", grade := some "Grade 6",
      docs := some "No content found" }
    "Grade 6" "Science" "No content found"
    rfl rfl rfl rfl rfl rfl rfl

/-- C4: the keyword chain over the lower-cased response is
order-sensitive: any lowered response containing "math" yields "Math"
regardless of what else it contains; for the literal generation response
"this could be math or science" intent_node sets topic to "Math"; and
when none of the keywords matches, topic is the lowered response trimmed
and capitalized. -/
theorem claim_C4 :
    (∀ r : String, strContains r "math" = true → classifyTopic r = "Math") ∧
    (∀ (gen : Gen) (s : TutorState) (tq : String),
      s.translated = some tq →
      gen (intentPrompt tq) = .ok "this could be math or science" →
      intent_node gen s = .ok { s with topic := some "Math", grade := some "Grade 6" }) ∧
    (∀ r : String,
      strContains r "math" = false → strContains r "science" = false →
      strContains r "ai" = false → strContains r "artificial intelligence" = false →
      strContains r "history" = false → strContains r "geography" = false →
      classifyTopic r = pyCapitalize (pyStrip r)) := by
  refine ⟨?_, ?_, ?_⟩
  · intro r h
    simp [classifyTopic, h]
  · intro gen s tq hq hg
    have hm : classifyTopic (pyLower "this could be math or science") = "Math" := by decide
    simp [intent_node, hq, hg, hm]
  · intro r h1 h2 h3 h4 h5 h6
    simp [classifyTopic, h1, h2, h3, h4, h5, h6]

/-- Witness for C4 at the literal response of the test scenario. -/
theorem claim_C4_witness :
    intent_node (fun _ => .ok "this could be math or science") { translated := some "q" } =
      .ok { translated := some "q", topic := some "Math", grade := some "Grade 6" } :=
  claim_C4.2.1 (fun _ => .ok "this could be math or science")
    { translated := some "q" } "q" rfl rfl

/-- C9: keyword matching is substring containment, not whole-word
matching: a lowered response containing "ai" anywhere (and no earlier
keyword "math" or "science") makes intent_node set topic to
"Artificial Intelligence". -/
theorem claim_C9 (gen : Gen) (s : TutorState) (tq r : String)
    (hq : s.translated = some tq) (hg : gen (intentPrompt tq) = .ok r)
    (hai : strContains (pyLower r) "ai" = true)
    (hm : strContains (pyLower r) "math" = false)
    (hs : strContains (pyLower r) "science" = false) :
    intent_node gen s =
      .ok { s with topic := some "Artificial Intelligence", grade := some "Grade 6" } := by
  simp [intent_node, hq, hg, classifyTopic, hai, hm, hs]

/-- Witness for C9 at the response "painting", which contains "ai" only
inside a word. -/
theorem claim_C9_witness :
    intent_node (fun _ => .ok "painting") { translated := some "q" } =
      .ok { translated := some "q", topic := some "Artificial Intelligence",
            grade := some "Grade 6" } :=
  claim_C9 (fun _ => .ok "painting") { translated := some "q" } "q" "painting"
    rfl rfl (by decide) (by decide) (by decide)

/-- A concrete translator exercising translate_back_node: it succeeds on
the text "expl" and fails on any other text. -/
def oneFieldTranslator : Translator :=
  fun _ _ txt => if txt = "expl" then .ok "EXPL" else .error "boom"

/-- C1 counterexample: the two translation calls of translate_back_node
share a single try block, so the fields are not degraded independently.
Here the translator succeeds on the explanation "expl" (producing "EXPL")
and fails on the encouragement "enc"; independence would leave the
explanation as its successful translation, but the code discards that
translation and appends the failure suffix to the original explanation. -/
theorem claim_C1_counterexample :
    oneFieldTranslator "auto" "hi" "expl" = .ok "EXPL" ∧
    translate_back_node oneFieldTranslator
        { lang := some "Hindi", answer := some "expl", feedback := some "enc" } =
      .ok ({ lang := some "Hindi",
             answer := some "expl\n\n(⚠️ Translation failed: boom)",
             feedback := some "enc" },
           [⟨"auto", "hi", "expl"⟩, ⟨"auto", "hi", "enc"⟩]) ∧
    (some "expl\n\n(⚠️ Translation failed: boom)" : Option String) ≠ some "EXPL" :=
  ⟨rfl, rfl, by decide⟩

/-- C1 amended: for a non-canonical target, a translation failure of
either field never aborts translate_back_node. When the explanation
translation fails, the explanation becomes the original explanation with
the diagnostic suffix, the encouragement is left untouched (untranslated)
and the encouragement translation is never attempted (one call). When the
explanation translation succeeds but the encouragement translation fails,
the successful explanation translation is discarded: again the
explanation gets the diagnostic suffix and the encouragement is left
untouched. The two fields are not translated and degraded
independently. -/
theorem claim_C1_amended (tr : Translator) (s : TutorState)
    (lang ans fb e : String)
    (hl : s.lang = some lang) (ha : s.answer = some ans) (hf : s.feedback = some fb)
    (hcode : langCode lang ≠ "en") :
    (tr "auto" (langCode lang) ans = .error e →
      translate_back_node tr s =
        .ok ({ s with answer := some (ans ++ translationFailedSuffix e) },
             [⟨"auto", langCode lang, ans⟩])) ∧
    (∀ ta, tr "auto" (langCode lang) ans = .ok ta →
      tr "auto" (langCode lang) fb = .error e →
      translate_back_node tr s =
        .ok ({ s with answer := some (ans ++ translationFailedSuffix e) },
             [⟨"auto", langCode lang, ans⟩, ⟨"auto", langCode lang, fb⟩])) := by
  constructor
  · intro h
    simp [translate_back_node, hl, ha, hf, hcode, h]
  · intro ta h1 h2
    simp [translate_back_node, hl, ha, hf, hcode, h1, h2]

/-- Witness for the amended C1 at a translator that fails on every text:
the request still succeeds, with the suffixed explanation and the
untouched encouragement. -/
theorem claim_C1_witness :
    translate_back_node (fun _ _ _ => .error "boom")
        { lang := some "Hindi", answer := some "a", feedback := some "f" } =
      .ok ({ lang := some "Hindi",
             answer := some ("a" ++ translationFailedSuffix "boom"),
             feedback := some "f" },
           [⟨"auto", langCode "Hindi", "a"⟩]) :=
  (claim_C1_amended (fun _ _ _ => .error "boom")
    { lang := some "Hindi", answer := some "a", feedback := some "f" }
    "Hindi" "a" "f" "boom" rfl rfl rfl (by decide)).1 rfl

/-- C5: for each supported non-canonical language (Hindi, Gujarati,
Tamil), translate_node makes exactly one translation call with target
"en", translate_back_node makes exactly two calls (one per field) with
target the learner's code (which is not "en"), and a full successful
pipeline run makes exactly three translation calls in total, listed
explicitly in its trace. -/
theorem claim_C5 (tr : Translator) (gen : Gen) (search : Search) (lang : String)
    (hlang : lang = "Hindi" ∨ lang = "Gujarati" ∨ lang = "Tamil")
    (s t : TutorState) (q tq ans fb ta tf r expl xta xtf : String)
    (hsq : s.question = some q) (hsl : s.lang = some lang)
    (htq : tr "auto" "en" q = .ok tq)
    (htl : t.lang = some lang) (hta : t.answer = some ans) (htf : t.feedback = some fb)
    (h1 : tr "auto" (langCode lang) ans = .ok ta)
    (h2 : tr "auto" (langCode lang) fb = .ok tf)
    (hr : gen (intentPrompt tq) = .ok r)
    (hexpl : gen (answerPrompt "Grade 6" (classifyTopic (pyLower r)) (firstDoc (search tq))) = .ok expl)
    (h3 : tr "auto" (langCode lang) expl = .ok xta)
    (h4 : tr "auto" (langCode lang) (feedbackText (classifyTopic (pyLower r))) = .ok xtf) :
    langCode lang ≠ "en" ∧
    translate_node tr s = .ok ({ s with translated := some tq }, [⟨"auto", "en", q⟩]) ∧
    translate_back_node tr t =
      .ok ({ t with answer := some ta, feedback := some tf },
           [⟨"auto", langCode lang, ans⟩, ⟨"auto", langCode lang, fb⟩]) ∧
    run_pipeline tr gen search q lang =
      .ok ({ question := some q, lang := some lang, translated := some tq,
             topic := some (classifyTopic (pyLower r)), grade := some "Grade 6",
             docs := some (firstDoc (search tq)),
             answer := some xta,
             feedback := some xtf },
           [⟨"auto", "en", q⟩, ⟨"auto", langCode lang, expl⟩,
            ⟨"auto", langCode lang, feedbackText (classifyTopic (pyLower r))⟩]) := by
  have hne : pyLower lang ≠ "english" := by
    rcases hlang with h | h | h <;> subst h <;> decide
  have hcode : langCode lang ≠ "en" := by
    rcases hlang with h | h | h <;> subst h <;> decide
  refine ⟨hcode, ?_, ?_, ?_⟩
  · simp [translate_node, hsq, hsl, hne, htq]
  · simp [translate_back_node, htl, hta, htf, hcode, h1, h2]
  · have e1 : translate_node tr { question := some q, lang := some lang } =
        .ok ({ question := some q, lang := some lang, translated := some tq },
             [⟨"auto", "en", q⟩]) := by
      simp [translate_node, hne, htq]
    have e2 : intent_node gen
        { question := some q, lang := some lang, translated := some tq } =
        .ok { question := some q, lang := some lang, translated := some tq,
              topic := some (classifyTopic (pyLower r)), grade := some "Grade 6" } := by
      simp [intent_node, hr]
    have e3 : retrieve_node search
        { question := some q, lang := some lang, translated := some tq,
          topic := some (classifyTopic (pyLower r)), grade := some "Grade 6" } =
        .ok { question := some q, lang := some lang, translated := some tq,
              topic := some (classifyTopic (pyLower r)), grade := some "Grade 6",
              docs := some (firstDoc (search tq)) } := by
      simp [retrieve_node]
    have e4 : generate_answer_node gen
        { question := some q, lang := some lang, translated := some tq,
          topic := some (classifyTopic (pyLower r)), grade := some "Grade 6",
          docs := some (firstDoc (search tq)) } =
        .ok { question := some q, lang := some lang, translated := some tq,
              topic := some (classifyTopic (pyLower r)), grade := some "Grade 6",
              docs := some (firstDoc (search tq)), answer := some expl } := by
      simp [generate_answer_node, hexpl]
    have e5 : translate_back_node tr
        (feedback_node (progress_node
          { question := some q, lang := some lang, translated := some tq,
            topic := some (classifyTopic (pyLower r)), grade := some "Grade 6",
            docs := some (firstDoc (search tq)), answer := some expl })) =
        .ok ({ question := some q, lang := some lang, translated := some tq,
               topic := some (classifyTopic (pyLower r)), grade := some "Grade 6",
               docs := some (firstDoc (search tq)),
               answer := some xta, feedback := some xtf },
             [⟨"auto", langCode lang, expl⟩,
              ⟨"auto", langCode lang, feedbackText (classifyTopic (pyLower r))⟩]) := by
      simp [progress_node, feedback_node, translate_back_node, hcode, h3, h4]
    simp [run_pipeline, e1, e2, e3, e4, e5]

/-- Witness for C5: a Hindi request against an identity translator, a
generator answering "science" to the classification prompt and "EXPL"
otherwise, and an empty retriever; the pipeline trace holds exactly three
translation calls. -/
theorem claim_C5_witness :
    langCode "Hindi" ≠ "en" ∧
    translate_node (fun _ _ txt => .ok txt)
        { question := some "q", lang := some "Hindi" } =
      .ok ({ question := some "q", lang := some "Hindi", translated := some "q" },
           [⟨"auto", "en", "q"⟩]) ∧
    translate_back_node (fun _ _ txt => .ok txt)
        { lang := some "Hindi", answer := some "a", feedback := some "f" } =
      .ok ({ lang := some "Hindi", answer := some "a", feedback := some "f" },
           [⟨"auto", langCode "Hindi", "a"⟩, ⟨"auto", langCode "Hindi", "f"⟩]) ∧
    run_pipeline (fun _ _ txt => .ok txt)
        (fun p => if p = intentPrompt "q" then .ok "science" else .ok "EXPL")
        (fun _ => []) "q" "Hindi" =
      .ok ({ question := some "q", lang := some "Hindi", translated := some "q",
             topic := some "Science", grade := some "Grade 6",
             docs := some "No content found",
             answer := some "EXPL",
             feedback := some "🎉 Great job! Want to learn more about Science?" },
           [⟨"auto", "en", "q"⟩, ⟨"auto", langCode "Hindi", "EXPL"⟩,
            ⟨"auto", langCode "Hindi", "🎉 Great job! Want to learn more about Science?"⟩]) :=
  claim_C5 (fun _ _ txt => .ok txt)
    (fun p => if p = intentPrompt "q" then .ok "science" else .ok "EXPL")
    (fun _ => []) "Hindi" (Or.inl rfl)
    { question := some "q", lang := some "Hindi" }
    { lang := some "Hindi", answer := some "a", feedback := some "f" }
    "q" "q" "a" "f" "a" "f" "science" "EXPL" "EXPL"
    "🎉 Great job! Want to learn more about Science?"
    rfl rfl rfl rfl rfl rfl rfl rfl rfl rfl rfl rfl

end EduGraph
